import Mathlib

/-!
Verification of the ImageCLEF 2023 Aware evaluation script
(`dataset/evaluate.py`).  The script validates a submission file (a JSON
object mapping user-profile identifiers to four numeric situation scores)
against a ground-truth mapping and scores it with the mean Pearson
correlation coefficient over the four fixed situation codes.

Modelling conventions:
* Python dictionaries produced by `json.load` are modelled as association
  lists `List (String × _)` in insertion order; JSON parsing guarantees the
  keys are distinct, which appears as `Nodup` hypotheses where it matters.
* JSON scalar values are modelled by `PyVal`, which remembers the Python
  runtime type name used by `validate_score` (`type(score).__name__`).
* Python floats are modelled as exact rationals (`ℚ`) on the validation
  side and as real numbers (`ℝ`) on the scoring side; the IEEE-754 `nan`
  produced by `scipy.stats.stats.pearsonr` on a zero-variance vector is
  modelled by `Option.none`, which the summation propagates just as `nan`
  propagates through float addition.
* Exceptions are modelled by `Except`; the error payload keeps the data
  that the Python code interpolates into the exception message, and
  `ValidationError.render` rebuilds the exact message text.
-/

namespace Aware

/-- Scalar value of a parsed JSON document, tagged the way the Python
runtime tags it (`int`, `float`, `str`, `bool`, `NoneType`). -/
inductive PyVal where
  | pyInt (n : Int)
  | pyFloat (q : ℚ)
  | pyStr (s : String)
  | pyBool (b : Bool)
  | pyNull
  deriving DecidableEq, Repr

/-- Model of Python `type(v).__name__` on a `PyVal`, as compared against
the literals `"int"` and `"float"` in `validate_score`.  Note that a JSON
`true`/`false` has type name `bool` in Python, so it is rejected. -/
def PyVal.typeName : PyVal → String
  | .pyInt _ => "int"
  | .pyFloat _ => "float"
  | .pyStr _ => "str"
  | .pyBool _ => "bool"
  | .pyNull => "NoneType"

/-- Model of the Python `float(...)` coercion applied on lines 156-159 of
`evaluate.py`.  It is only ever applied to values that already passed
`validate_score`, i.e. to `pyInt` and `pyFloat`; the remaining cases are
given the junk value 0. -/
def PyVal.toFloat : PyVal → ℚ
  | .pyInt n => (n : ℚ)
  | .pyFloat q => q
  | _ => 0

/-- A validated score record: the four situation scores of one user
profile, after the `float(...)` coercion.  This is also the shape of one
ground-truth entry. -/
structure ScoreRecord where
  acc : ℚ
  it : ℚ
  bank : ℚ
  wait : ℚ
  deriving DecidableEq, Repr

/-- Field access `record[sit]` for a situation-code string. -/
def ScoreRecord.sit (r : ScoreRecord) (code : String) : ℚ :=
  if code = "acc" then r.acc
  else if code = "it" then r.it
  else if code = "bank" then r.bank
  else r.wait

/-- The class constant `REQUIRED_SITUATION_CODES = ("acc", "it", "bank", "wait")`. -/
def REQUIRED_SITUATION_CODES : List String := ["acc", "it", "bank", "wait"]

/-- A validation failure raised by `load_predictions`.  Each constructor
keeps the data interpolated into the corresponding Python exception
message; `render` rebuilds the message text. -/
inductive ValidationError where
  | countMismatch (nbrProfiles : Nat)
  | unknownProfile (recordCount : Nat) (userProfile : String)
  | wrongPairCount (recordCount : Nat) (userProfile : String)
  | unknownSituationCode (recordCount : Nat) (scoreName userProfile : String)
  | scoreNotANumber (recordCount : Nat) (situationCode userProfile : String)
  deriving DecidableEq, Repr

/-- A failure of `load_predictions`: either one of the deliberate
validation errors, or a Python `KeyError` escaping from `scores[code]`
(which the checks make unreachable; see the safety claim C9). -/
inductive LoadError where
  | validation (e : ValidationError)
  | keyError (key : String)
  deriving DecidableEq, Repr

/-- Model of `validate_score` (lines 167-177): reject unless the Python
runtime type of the value is `int` or `float`. -/
def validate_score (score : PyVal) (situation_code user_profile : String)
    (record_count : Nat) : Except LoadError Unit :=
  if score.typeName ≠ "int" ∧ score.typeName ≠ "float" then
    .error (.validation (.scoreNotANumber record_count situation_code user_profile))
  else
    .ok ()

/-- Model of the dictionary subscript `scores[code]`: a missing key raises
`KeyError` in Python. -/
def getScore (scores : List (String × PyVal)) (code : String) :
    Except LoadError PyVal :=
  match List.lookup code scores with
  | some v => .ok v
  | none => .error (.keyError code)

/-- The subscript lookup `scores[code]` immediately followed by the
`validate_score` call, as performed for each required code on lines
127-153; propagates the first failure, otherwise returns the value. -/
def checkedScore (scores : List (String × PyVal))
    (code user_profile : String) (record_count : Nat) :
    Except LoadError PyVal :=
  match getScore scores code with
  | .error e => .error e
  | .ok v =>
    match validate_score v code user_profile record_count with
    | .error e => .error e
    | .ok _ => .ok v

/-- The per-record body of the `for user_profile in user_data_items` loop
of `load_predictions` (lines 98-160): the unknown-profile check, the
field-count check, the unknown-situation-code scan (in record order), then
for each required code in the fixed order acc, it, bank, wait the
subscript lookup followed by `validate_score`; finally the four `float`
coercions building the validated record.  An exception anywhere aborts
the whole call, modelled by the error propagation of each `match`. -/
def processRecord (record_count : Nat) (user_profile : String)
    (scores : List (String × PyVal)) (allowed_user_profiles : List String) :
    Except LoadError ScoreRecord :=
  if user_profile ∉ allowed_user_profiles then
    .error (.validation (.unknownProfile record_count user_profile))
  else if scores.length ≠ 4 then
    .error (.validation (.wrongPairCount record_count user_profile))
  else
    match scores.find? (fun kv => !(REQUIRED_SITUATION_CODES.contains kv.1)) with
    | some kv => .error (.validation (.unknownSituationCode record_count kv.1 user_profile))
    | none =>
      match checkedScore scores "acc" user_profile record_count with
      | .error e => .error e
      | .ok accScore =>
      match checkedScore scores "it" user_profile record_count with
      | .error e => .error e
      | .ok itScore =>
      match checkedScore scores "bank" user_profile record_count with
      | .error e => .error e
      | .ok bankScore =>
      match checkedScore scores "wait" user_profile record_count with
      | .error e => .error e
      | .ok waitScore =>
        .ok { acc := accScore.toFloat, it := itScore.toFloat,
              bank := bankScore.toFloat, wait := waitScore.toFloat }

/-- The record loop of `load_predictions`: `record_count` is incremented
at the top of each iteration, and the validated records are accumulated in
iteration order. -/
def loadRecords (allowed_user_profiles : List String) (record_count : Nat) :
    List (String × List (String × PyVal)) →
    Except LoadError (List (String × ScoreRecord))
  | [] => .ok []
  | (user_profile, scores) :: rest =>
    match processRecord (record_count + 1) user_profile scores allowed_user_profiles with
    | .error e => .error e
    | .ok r =>
      match loadRecords allowed_user_profiles (record_count + 1) rest with
      | .error e => .error e
      | .ok others => .ok ((user_profile, r) :: others)

/-- Model of `load_predictions` (lines 86-162) applied to the parsed
submission object `user_data_items`: the profile-count check against the
ground truth comes first, then the per-record loop. -/
def load_predictions (gt : List (String × ScoreRecord))
    (user_data_items : List (String × List (String × PyVal))) :
    Except LoadError (List (String × ScoreRecord)) :=
  if user_data_items.length ≠ gt.length then
    Except.error (.validation (.countMismatch user_data_items.length))
  else
    loadRecords (gt.map Prod.fst) 0 user_data_items

/-- Python `str` of the tuple `REQUIRED_SITUATION_CODES`, as interpolated
into two of the exception messages. -/
def pyCodesTupleStr : String :=
  "(\x27acc\x27, \x27it\x27, \x27bank\x27, \x27wait\x27)"

/-- The suffix appended by `raise_exception` (line 165):
`" Error occured at record nbr {}.".format(record_count)` (sic). -/
def recordSuffix (record_count : Nat) : String :=
  " Error occured at record nbr " ++ toString record_count ++ "."

/-- The exception message text of each validation failure, mirroring the
format strings of `evaluate.py`.  The count-mismatch error is raised
directly with `raise Exception(message, count)` and not through
`raise_exception`, so its text is the Python `str` of the two-element
argument tuple and carries no record index; every other error goes through
`raise_exception`, which appends `recordSuffix`. -/
def ValidationError.render : ValidationError → String
  | .countMismatch n =>
      "(\x27Number of user profiles in submission file not equal to number of user_profiles in gt set.\x27, "
        ++ toString n ++ ")"
  | .unknownProfile rc p =>
      "User profile \x27" ++ p ++ "\x27 does not exist in gt set." ++ recordSuffix rc
  | .wrongPairCount rc p =>
      "User profile \x27" ++ p
        ++ "\x27 must contain exactly 4 key/value pairs where key=situation_code and value=score (Required situation codes: "
        ++ pyCodesTupleStr ++ ")." ++ recordSuffix rc
  | .unknownSituationCode rc name p =>
      "Situation code \x27" ++ name ++ "\x27 for user profile \x27" ++ p
        ++ "\x27 does not exist (Possible situation codes: "
        ++ pyCodesTupleStr ++ ")." ++ recordSuffix rc
  | .scoreNotANumber rc code p =>
      "Score for situtation code \x27" ++ code ++ "\x27 for user profile \x27" ++ p
        ++ "\x27 must be a number. In case it is a number make sure that you remove the quotes. "
        ++ recordSuffix rc

/-- Substring test used to state what an error message contains. -/
def strContains (s pat : String) : Bool :=
  s.toList.tails.any (fun t => pat.toList.isPrefixOf t)

/-! ### The scoring side (`compute_primary_score`, lines 180-204)

The four score vectors live in `ℝ`.  `scipy.stats.stats.pearsonr` centres
both vectors, takes the dot product of the centred vectors over the square
root of the product of their sums of squares, and clips the result to
`[-1, 1]`; on a zero-variance vector the quotient is `0/0 = nan`, modelled
here as `none`. -/

/-- Arithmetic mean of a vector (`np.mean`); junk value `0/0 = 0` on the
empty vector, where Python would produce `nan` (and the resulting Pearson
denominator is `0`, so `pearsonr` is `none` either way). -/
noncomputable def mean (x : List ℝ) : ℝ := x.sum / x.length

/-- The centred vector `xm = x - mx`. -/
noncomputable def centered (x : List ℝ) : List ℝ := x.map (fun a => a - mean x)

/-- Sum of squares (`scipy` helper `ss`). -/
noncomputable def sumSquares (x : List ℝ) : ℝ := (x.map (fun a => a ^ 2)).sum

/-- Numerator `np.add.reduce(xm * ym)`: the dot product of the centred
vectors (elementwise product, modelled on the zip, then summed). -/
noncomputable def pearsonNum (x y : List ℝ) : ℝ :=
  (((centered x).zip (centered y)).map (fun p => p.1 * p.2)).sum

/-- Denominator `np.sqrt(ss(xm) * ss(ym))`. -/
noncomputable def pearsonDen (x y : List ℝ) : ℝ :=
  Real.sqrt (sumSquares (centered x) * sumSquares (centered y))

/-- Model of `scipy.stats.stats.pearsonr` (first component of its result):
`r = r_num / r_den` clipped to `[-1, 1]`; when the denominator vanishes the
quotient is `0/0 = nan`, modelled as `none`. -/
noncomputable def pearsonr (x y : List ℝ) : Option ℝ :=
  if pearsonDen x y = 0 then none
  else some (max (min (pearsonNum x y / pearsonDen x y) 1) (-1))

/-- The set literal `situations = {"acc", "it", "bank", "wait"}` of line
190, as the list of its four distinct elements (`len(situations) = 4`;
iteration order of a Python set is unspecified, and only the sum and the
length of this collection are used). -/
def situations : List String := ["acc", "it", "bank", "wait"]

/-- The vector `gt_list` built on line 197: iterate the ground-truth
profiles in order and take each profile's score for situation `sit`. -/
noncomputable def gtList (gt : List (String × ScoreRecord)) (sit : String) :
    List ℝ :=
  gt.map (fun kv => ((kv.2.sit sit : ℚ) : ℝ))

/-- The vector `predictions_list` built on line 198: iterate the
ground-truth profiles in order and take `predictions[user][sit]`.  The
lookup is by profile identifier; the `getD` default is junk that is never
reached for a validated predictions mapping (whose key set equals the
ground truth's). -/
noncomputable def predictionsList (gt predictions : List (String × ScoreRecord))
    (sit : String) : List ℝ :=
  gt.map (fun kv =>
    (((List.lookup kv.1 predictions).getD ⟨0, 0, 0, 0⟩).sit sit : ℚ))

/-- The accumulation of `sum_correlation` over the situation codes (lines
192-201).  A `nan` (`none`) from any `pearsonr` call poisons the float sum
exactly as `none` is propagated here; real addition is associative and
commutative, so the grouping is immaterial. -/
noncomputable def sumCorrelation (gt predictions : List (String × ScoreRecord)) :
    List String → Option ℝ
  | [] => some 0
  | sit :: rest =>
    match pearsonr (gtList gt sit) (predictionsList gt predictions sit) with
    | none => none
    | some r =>
      match sumCorrelation gt predictions rest with
      | none => none
      | some s => some (r + s)

/-- Model of `compute_primary_score`: the summed correlations divided by
`len(situations) = 4`. -/
noncomputable def compute_primary_score (gt predictions : List (String × ScoreRecord)) :
    Option ℝ :=
  (sumCorrelation gt predictions situations).map
    (fun s => s / (situations.length : ℝ))

/-- Model of `compute_secondary_score`: the constant `0.0`. -/
def compute_secondary_score (_predictions : List (String × ScoreRecord)) : ℝ := 0

/-- Model of `_evaluate` (lines 24-43): load and validate the submission,
then return the result record of both scores.  The `_context` parameter is
modelled with the same dictionary shape as the Python default `{}`; the
body never mentions it, exactly as in the source. -/
noncomputable def _evaluate (gt : List (String × ScoreRecord))
    (submission : List (String × List (String × PyVal)))
    (_context : List (String × String)) :
    Except LoadError (Option ℝ × ℝ) :=
  match load_predictions gt submission with
  | .error e => .error e
  | .ok predictions =>
    .ok (compute_primary_score gt predictions, compute_secondary_score predictions)

/-- Modelled from the spec: the textbook Pearson correlation coefficient
`r = Σ(xi - x̄)(yi - ȳ) / sqrt(Σ(xi - x̄)² · Σ(yi - ȳ)²)` as written in the
specification, to be compared with the implementation-side `pearsonr`. -/
noncomputable def pearson_spec (x y : List ℝ) : ℝ :=
  (((x.zip y).map (fun p => (p.1 - mean x) * (p.2 - mean y))).sum) /
    Real.sqrt (((x.map (fun a => (a - mean x) ^ 2)).sum) *
      ((y.map (fun b => (b - mean y) ^ 2)).sum))

/-! ### Concrete inputs used by witnesses and counterexamples -/

/-- The worked example of the specification: two ground-truth profiles. -/
def gtEx : List (String × ScoreRecord) :=
  [("u1", ⟨10, 20, 30, 40⟩), ("u2", ⟨20, 10, 10, 20⟩)]

/-- The example submission identical to `gtEx`, as parsed JSON. -/
def subEx : List (String × List (String × PyVal)) :=
  [("u1", [("acc", .pyInt 10), ("it", .pyInt 20), ("bank", .pyInt 30), ("wait", .pyInt 40)]),
   ("u2", [("acc", .pyInt 20), ("it", .pyInt 10), ("bank", .pyInt 10), ("wait", .pyInt 20)])]

/-- A one-profile ground truth: every per-situation score vector has
length 1, hence zero variance. -/
def gtOne : List (String × ScoreRecord) := [("u1", ⟨10, 20, 30, 40⟩)]

/-- A valid parsed record for profile `u1` of `gtEx`. -/
def scoresU1 : List (String × PyVal) :=
  [("acc", .pyInt 10), ("it", .pyInt 20), ("bank", .pyInt 30), ("wait", .pyInt 40)]

/-- A valid parsed record for profile `u2` of `gtEx` (values arbitrary). -/
def scoresU2 : List (String × PyVal) :=
  [("acc", .pyInt 20), ("it", .pyInt 10), ("bank", .pyInt 10), ("wait", .pyInt 20)]

/-- One-record submission (wrong profile count against `gtEx`), with a
record that would also fail the per-record checks. -/
def subShort : List (String × List (String × PyVal)) :=
  [("u1", [("acc", .pyStr "x")])]

/-- Submission with the right count against `gtEx` but an unknown profile
`u3`, all records otherwise valid (the specification's own example). -/
def subUnknownProfile : List (String × List (String × PyVal)) :=
  [("u1", scoresU1), ("u3", scoresU2)]

/-- Submission with the right count against `gtEx`, containing the unknown
profile `u3`, but whose first record has only 3 fields. -/
def subEarlyBad : List (String × List (String × PyVal)) :=
  [("u1", [("acc", .pyInt 1), ("it", .pyInt 1), ("bank", .pyInt 1)]), ("u3", scoresU2)]

/-- A record carrying the string-typed score `"22.4"` for `acc` and
otherwise valid fields. -/
def scoresStr : List (String × PyVal) :=
  [("acc", .pyStr "22.4"), ("it", .pyInt 1), ("bank", .pyInt 1), ("wait", .pyInt 1)]

/-- A record carrying the string-typed score `"22.4"` for `acc` and an
unknown situation code `zz` in place of `wait`. -/
def scoresBadCode : List (String × PyVal) :=
  [("acc", .pyStr "22.4"), ("it", .pyInt 1), ("bank", .pyInt 1), ("zz", .pyInt 1)]

/-- Submission whose first record is `scoresStr`. -/
def subStrScore : List (String × List (String × PyVal)) :=
  [("u1", scoresStr), ("u2", scoresU2)]

/-- Submission whose first record is `scoresBadCode`. -/
def subStrScoreBadCode : List (String × List (String × PyVal)) :=
  [("u1", scoresBadCode), ("u2", scoresU2)]

/-- `gtEx` with the two profiles listed in the opposite order. -/
def gtExRev : List (String × ScoreRecord) :=
  [("u2", ⟨20, 10, 10, 20⟩), ("u1", ⟨10, 20, 30, 40⟩)]

end Aware

namespace Aware

/-! ### Substring lemmas for the error-message claims -/

/-- A list is a `isPrefixOf` of itself followed by anything. -/
theorem isPrefixOf_append_self (p r : List Char) : p.isPrefixOf (p ++ r) = true := by
  induction p with
  | nil => simp
  | cons c t ih => simp [List.isPrefixOf_cons₂, ih]

/-- A prefix stays a prefix after extending the larger list on the right. -/
theorem isPrefixOf_append_ext (p : List Char) :
    ∀ τ u, p.isPrefixOf τ = true → p.isPrefixOf (τ ++ u) = true := by
  induction p with
  | nil => intro τ u _; simp
  | cons c t ih =>
    intro τ u h
    cases τ with
    | nil => exact absurd h (by simp)
    | cons d τ' =>
      simp only [List.isPrefixOf_cons₂, Bool.and_eq_true] at h
      simp only [List.cons_append, List.isPrefixOf_cons₂, Bool.and_eq_true]
      exact ⟨h.1, ih τ' u h.2⟩

/-- If the pattern is a prefix of the list, the tails-based scan finds it. -/
theorem charsContains_head {l p : List Char} (h : p.isPrefixOf l = true) :
    (l.tails.any (fun t => p.isPrefixOf t)) = true := by
  cases l with
  | nil => simpa [List.tails] using h
  | cons a l =>
    rw [List.tails_cons]
    simp only [List.any_cons, h, Bool.true_or]

/-- The tails-based scan is stable under prepending. -/
theorem charsContains_append_left (u : List Char) {l p : List Char}
    (h : (l.tails.any (fun t => p.isPrefixOf t)) = true) :
    ((u ++ l).tails.any (fun t => p.isPrefixOf t)) = true := by
  induction u with
  | nil => simpa using h
  | cons c u ih =>
    rw [List.cons_append, List.tails_cons]
    simp only [List.any_cons, ih, Bool.or_true]

/-- The tails-based scan is stable under appending on the right. -/
theorem charsContains_append_right (u : List Char) {l p : List Char}
    (h : (l.tails.any (fun t => p.isPrefixOf t)) = true) :
    ((l ++ u).tails.any (fun t => p.isPrefixOf t)) = true := by
  rw [List.any_eq_true] at h ⊢
  obtain ⟨τ, hτ, hp⟩ := h
  rw [List.mem_tails] at hτ
  obtain ⟨w, hw⟩ := hτ
  exact ⟨τ ++ u, by rw [List.mem_tails]; exact ⟨w, by rw [← List.append_assoc, hw]⟩,
    isPrefixOf_append_ext _ _ _ hp⟩

theorem string_toList_append (a b : String) : (a ++ b).toList = a.toList ++ b.toList := by
  simp [String.toList]

/-- A string contains its own final segment. -/
theorem strContains_append_end (a t : String) : strContains (a ++ t) t = true := by
  unfold strContains
  rw [string_toList_append]
  exact charsContains_append_left _ (charsContains_head (by simp))

/-- A string contains a middle segment. -/
theorem strContains_append_mid (a t b : String) : strContains (a ++ t ++ b) t = true := by
  unfold strContains
  rw [string_toList_append, string_toList_append]
  rw [List.append_assoc]
  exact charsContains_append_left _
    (charsContains_head (isPrefixOf_append_self t.toList b.toList))

/-- Containment is stable under appending on the right. -/
theorem strContains_append_right {s t : String} (b : String)
    (h : strContains s t = true) : strContains (s ++ b) t = true := by
  unfold strContains at h ⊢
  rw [string_toList_append]
  exact charsContains_append_right _ h

/-! ### Error-message claims -/

/-- Claim C3 (amended): every rejection that goes through `raise_exception`
— that is, every per-record validation rejection — carries a message
containing the `raise_exception` suffix with its 1-based record index, the
offending profile identifier where applicable, and the situation code
where applicable.  The count-mismatch rejection is raised directly with
`raise Exception(...)`, not through `raise_exception`, and its message
carries no record index (see the counterexample), so it is excluded
here. -/
theorem C3_per_record_messages (gt : List (String × ScoreRecord))
    (sub : List (String × List (String × PyVal))) (e : ValidationError)
    (h : load_predictions gt sub = .error (.validation e)) :
    match e with
    | .countMismatch _ => True
    | .unknownProfile rc p =>
        strContains e.render (recordSuffix rc) = true ∧ strContains e.render p = true
    | .wrongPairCount rc p =>
        strContains e.render (recordSuffix rc) = true ∧ strContains e.render p = true
    | .unknownSituationCode rc name p =>
        strContains e.render (recordSuffix rc) = true ∧
        strContains e.render name = true ∧ strContains e.render p = true
    | .scoreNotANumber rc code p =>
        strContains e.render (recordSuffix rc) = true ∧
        strContains e.render code = true ∧ strContains e.render p = true := by
  cases e with
  | countMismatch n => trivial
  | unknownProfile rc p =>
    refine ⟨?_, ?_⟩
    · exact strContains_append_end _ _
    · exact strContains_append_right _ (strContains_append_mid _ _ _)
  | wrongPairCount rc p =>
    refine ⟨?_, ?_⟩
    · exact strContains_append_end _ _
    · exact strContains_append_right _ (strContains_append_right _
        (strContains_append_right _ (strContains_append_mid _ _ _)))
  | unknownSituationCode rc name p =>
    refine ⟨?_, ?_, ?_⟩
    · exact strContains_append_end _ _
    · exact strContains_append_right _ (strContains_append_right _
        (strContains_append_right _ (strContains_append_right _
          (strContains_append_right _ (strContains_append_mid _ _ _)))))
    · exact strContains_append_right _ (strContains_append_right _
        (strContains_append_right _ (strContains_append_mid _ _ _)))
  | scoreNotANumber rc code p =>
    refine ⟨?_, ?_, ?_⟩
    · exact strContains_append_end _ _
    · exact strContains_append_right _ (strContains_append_right _
        (strContains_append_right _ (strContains_append_mid _ _ _)))
    · exact strContains_append_right _ (strContains_append_mid _ _ _)

/-- Witness for C3: a rejection of a concrete submission, with the index,
profile and code containments evaluated on the rendered message. -/
theorem C3_per_record_messages_witness :
    load_predictions gtEx subUnknownProfile =
      .error (.validation (.unknownProfile 2 "u3")) ∧
    strContains ((ValidationError.unknownProfile 2 "u3").render) (recordSuffix 2) = true ∧
    strContains ((ValidationError.unknownProfile 2 "u3").render) "u3" = true := by
  have h : load_predictions gtEx subUnknownProfile =
      .error (.validation (.unknownProfile 2 "u3")) := rfl
  exact ⟨h, C3_per_record_messages gtEx subUnknownProfile _ h⟩

/-- Counterexample to C3 as stated: the count-mismatch rejection does not
mention any record index — its message lacks the `record nbr` phrase that
`raise_exception` appends to all other rejections. -/
theorem C3_counterexample :
    load_predictions gtEx [] = .error (.validation (.countMismatch 0)) ∧
    strContains ((ValidationError.countMismatch 0).render) "record nbr" = false ∧
    strContains ((ValidationError.countMismatch 0).render) "Error occured at record nbr" = false := by
  exact ⟨rfl, by decide, by decide⟩

/-- Claim C5: a submission whose profile count differs from the ground
truth's is rejected with the count-mismatch error carrying the submission's
profile count, whatever its records contain: the count check precedes every
per-record check. -/
theorem C5_count_mismatch (gt : List (String × ScoreRecord))
    (sub : List (String × List (String × PyVal)))
    (h : sub.length ≠ gt.length) :
    load_predictions gt sub = .error (.validation (.countMismatch sub.length)) := by
  unfold load_predictions
  rw [if_pos h]

/-- Witness for C5 on a concrete one-record submission (whose record would
also fail the per-record checks, yet the count-mismatch error is the one
reported). -/
theorem C5_count_mismatch_witness :
    subShort.length ≠ gtEx.length ∧
    load_predictions gtEx subShort = .error (.validation (.countMismatch 1)) :=
  ⟨by decide, C5_count_mismatch gtEx subShort (by decide)⟩

/-! ### Structure of the validation loop -/

/-- A profile absent from the ground-truth keys fails `processRecord` at
its first check. -/
theorem processRecord_unknown (n : Nat) (p : String) (sc : List (String × PyVal))
    (al : List String) (h : p ∉ al) :
    processRecord n p sc al = .error (.validation (.unknownProfile n p)) := by
  simp [processRecord, h]

/-- A record accepted by `processRecord` names a ground-truth profile. -/
theorem processRecord_mem {n : Nat} {p : String} {sc : List (String × PyVal)}
    {al : List String} {r : ScoreRecord} (h : processRecord n p sc al = .ok r) :
    p ∈ al := by
  by_cases hmem : p ∈ al
  · exact hmem
  · rw [processRecord_unknown n p sc al hmem] at h
    cases h

/-- An accepted submission yields predictions keyed exactly like the
submission, in the same order. -/
theorem loadRecords_keys (al : List String) :
    ∀ (sub : List (String × List (String × PyVal))) (n : Nat)
      (preds : List (String × ScoreRecord)),
      loadRecords al n sub = .ok preds → preds.map Prod.fst = sub.map Prod.fst := by
  intro sub
  induction sub with
  | nil =>
    intro n preds h
    rw [loadRecords] at h
    cases h
    rfl
  | cons kv rest ih =>
    intro n preds h
    obtain ⟨p, sc⟩ := kv
    rw [loadRecords] at h
    cases hp : processRecord (n + 1) p sc al with
    | error e => rw [hp] at h; cases h
    | ok r =>
      rw [hp] at h
      cases hl : loadRecords al (n + 1) rest with
      | error e => rw [hl] at h; cases h
      | ok others =>
        rw [hl] at h
        cases h
        simp [ih (n + 1) others hl]

/-- Every profile of an accepted submission is a ground-truth profile. -/
theorem loadRecords_allowed (al : List String) :
    ∀ (sub : List (String × List (String × PyVal))) (n : Nat)
      (preds : List (String × ScoreRecord)),
      loadRecords al n sub = .ok preds → ∀ k ∈ sub.map Prod.fst, k ∈ al := by
  intro sub
  induction sub with
  | nil => intro n preds _ k hk; simp at hk
  | cons kv rest ih =>
    intro n preds h k hk
    obtain ⟨p, sc⟩ := kv
    rw [loadRecords] at h
    cases hp : processRecord (n + 1) p sc al with
    | error e => rw [hp] at h; cases h
    | ok r =>
      rw [hp] at h
      cases hl : loadRecords al (n + 1) rest with
      | error e => rw [hl] at h; cases h
      | ok others =>
        rcases (by simpa using hk : k = p ∨ k ∈ rest.map Prod.fst) with rfl | hk'
        · exact processRecord_mem hp
        · exact ih (n + 1) others hl k (by simpa using hk')

/-- If every record before position `|pre| + 1` validates and the record
there fails with the error `f` of its (1-based) index, the loop reports
exactly that error. -/
theorem loadRecords_error_at (al : List String) (f : Nat → LoadError)
    (p : String) (sc : List (String × PyVal))
    (hrec : ∀ m, processRecord m p sc al = .error (f m)) :
    ∀ (pre : List (String × List (String × PyVal))) (n : Nat)
      (rest : List (String × List (String × PyVal)))
      (_hpre : ∀ kv ∈ pre, ∀ m, ∃ r, processRecord m kv.1 kv.2 al = .ok r),
      loadRecords al n (pre ++ (p, sc) :: rest) = .error (f (n + pre.length + 1)) := by
  intro pre
  induction pre with
  | nil =>
    intro n rest _
    rw [List.nil_append, loadRecords, hrec (n + 1)]
    simp
  | cons kv pre ih =>
    intro n rest hpre
    obtain ⟨q, qsc⟩ := kv
    obtain ⟨r, hr⟩ := hpre (q, qsc) (by simp) (n + 1)
    rw [List.cons_append, loadRecords, hr,
      ih (n + 1) rest (fun kv h m => hpre kv (by simp [h]) m)]
    have : n + 1 + pre.length + 1 = n + (pre.length + 1) + 1 := by omega
    simp [this]

/-- A present, numerically typed value passes the lookup-and-validate
step with its value. -/
theorem checkedScore_good {scores : List (String × PyVal)} {code : String} {w : PyVal}
    (p : String) (rc : Nat) (hv : List.lookup code scores = some w)
    (hnum : w.typeName = "int" ∨ w.typeName = "float") :
    checkedScore scores code p rc = .ok w := by
  rcases hnum with h | h <;> simp [checkedScore, getScore, validate_score, hv, h]

/-- A present value of any non-numeric Python type fails the
lookup-and-validate step with the `validate_score` rejection. -/
theorem checkedScore_bad {scores : List (String × PyVal)} {code : String} {v : PyVal}
    (p : String) (rc : Nat) (hv : List.lookup code scores = some v)
    (hbad : v.typeName ≠ "int" ∧ v.typeName ≠ "float") :
    checkedScore scores code p rc = .error (.validation (.scoreNotANumber rc code p)) := by
  simp [checkedScore, getScore, validate_score, hv, hbad.1, hbad.2]

/-- On a present key, the lookup-and-validate step either returns the
value or raises the `validate_score` rejection — never a `KeyError`. -/
theorem checkedScore_cases {scores : List (String × PyVal)} {code : String} {w : PyVal}
    (p : String) (rc : Nat) (hv : List.lookup code scores = some w) :
    checkedScore scores code p rc = .ok w ∨
    checkedScore scores code p rc = .error (.validation (.scoreNotANumber rc code p)) := by
  by_cases hn : w.typeName = "int" ∨ w.typeName = "float"
  · exact Or.inl (checkedScore_good p rc hv hn)
  · exact Or.inr (checkedScore_bad p rc hv (not_or.mp hn))

/-- A key that occurs in an association list can be looked up. -/
theorem lookup_of_mem_keys {l : List (String × PyVal)} {k : String}
    (h : k ∈ l.map Prod.fst) : ∃ v, List.lookup k l = some v := by
  induction l with
  | nil => simp at h
  | cons kv t ih =>
    by_cases hk : k = kv.1
    · exact ⟨kv.2, by simp [List.lookup, hk]⟩
    · rcases (by simpa using h : k = kv.1 ∨ k ∈ t.map Prod.fst) with h' | h'
      · exact absurd h' hk
      · obtain ⟨v, hv⟩ := ih h'
        have hb : (k == kv.1) = false := by simpa using hk
        exact ⟨v, by simp [List.lookup, hb, hv]⟩

/-- A record with exactly 4 distinct field names, all drawn from the 4
required situation codes, carries every required code. -/
theorem keys_cover_codes {scores : List (String × PyVal)}
    (h4 : scores.length = 4)
    (hnames : ∀ kv ∈ scores, kv.1 ∈ REQUIRED_SITUATION_CODES)
    (hnd : (scores.map Prod.fst).Nodup) :
    ∀ c ∈ REQUIRED_SITUATION_CODES, c ∈ scores.map Prod.fst := by
  intro c hc
  have hsub : (scores.map Prod.fst).toFinset ⊆ REQUIRED_SITUATION_CODES.toFinset := by
    intro k hk
    rw [List.mem_toFinset] at hk ⊢
    obtain ⟨kv, hkv, rfl⟩ := List.mem_map.1 hk
    exact hnames kv hkv
  have hcard : REQUIRED_SITUATION_CODES.toFinset.card ≤ (scores.map Prod.fst).toFinset.card := by
    rw [List.toFinset_card_of_nodup hnd, List.length_map, h4]
    decide
  have heq := Finset.eq_of_subset_of_card_le hsub hcard
  rw [← List.mem_toFinset, heq, List.mem_toFinset]
  exact hc

/-- The unknown-situation-code scan accepts a record whose field names all
lie in the required codes. -/
theorem find?_codes_none {scores : List (String × PyVal)}
    (hnames : ∀ kv ∈ scores, kv.1 ∈ REQUIRED_SITUATION_CODES) :
    scores.find? (fun kv => !decide (kv.1 ∈ REQUIRED_SITUATION_CODES)) = none := by
  rw [List.find?_eq_none]
  intro kv hkv
  simp [hnames kv hkv]

/-- When the field-count and field-name checks hold of a record with
distinct keys, `processRecord` can never raise the modelled `KeyError`:
every one of its subscript lookups succeeds. -/
theorem processRecord_no_keyError {scores : List (String × PyVal)}
    (h4 : scores.length = 4)
    (hnames : ∀ kv ∈ scores, kv.1 ∈ REQUIRED_SITUATION_CODES)
    (hnd : (scores.map Prod.fst).Nodup) :
    ∀ (rc : Nat) (p : String) (al : List String) (k : String),
      processRecord rc p scores al ≠ .error (.keyError k) := by
  have cover := keys_cover_codes h4 hnames hnd
  obtain ⟨va, hva⟩ := lookup_of_mem_keys (cover "acc" (by simp [REQUIRED_SITUATION_CODES]))
  obtain ⟨vi, hvi⟩ := lookup_of_mem_keys (cover "it" (by simp [REQUIRED_SITUATION_CODES]))
  obtain ⟨vb, hvb⟩ := lookup_of_mem_keys (cover "bank" (by simp [REQUIRED_SITUATION_CODES]))
  obtain ⟨vw, hvw⟩ := lookup_of_mem_keys (cover "wait" (by simp [REQUIRED_SITUATION_CODES]))
  intro rc p al k
  by_cases hmem : p ∈ al
  · have hfind := find?_codes_none hnames
    rcases checkedScore_cases p rc hva with ha | ha
    · rcases checkedScore_cases p rc hvi with hi | hi
      · rcases checkedScore_cases p rc hvb with hb | hb
        · rcases checkedScore_cases p rc hvw with hw | hw
          · simp [processRecord, hmem, h4, hfind, ha, hi, hb, hw]
          · simp [processRecord, hmem, h4, hfind, ha, hi, hb, hw]
        · simp [processRecord, hmem, h4, hfind, ha, hi, hb]
      · simp [processRecord, hmem, h4, hfind, ha, hi]
    · simp [processRecord, hmem, h4, hfind, ha]
  · rw [processRecord_unknown rc p scores al hmem]
    simp

/-- A record whose required-code value at `code` has a non-numeric Python
type — all codes before it (in the fixed check order acc, it, bank, wait)
having numeric values — fails `processRecord` with the type error naming
`code`, provided it passes the profile, field-count and field-name
checks. -/
theorem processRecord_str_score (rc : Nat) (p : String)
    (scores : List (String × PyVal)) (al : List String)
    (cpre crest : List String) (code : String) (v : PyVal)
    (hmem : p ∈ al) (h4 : scores.length = 4)
    (hnames : ∀ kv ∈ scores, kv.1 ∈ REQUIRED_SITUATION_CODES)
    (hsplit : REQUIRED_SITUATION_CODES = cpre ++ code :: crest)
    (hvpre : ∀ c ∈ cpre, ∃ w, List.lookup c scores = some w ∧
      (w.typeName = "int" ∨ w.typeName = "float"))
    (hv : List.lookup code scores = some v)
    (hbad : v.typeName ≠ "int" ∧ v.typeName ≠ "float") :
    processRecord rc p scores al = .error (.validation (.scoreNotANumber rc code p)) := by
  have hfind := find?_codes_none hnames
  rcases cpre with _ | ⟨c1, _ | ⟨c2, _ | ⟨c3, _ | ⟨c4, cpre'⟩⟩⟩⟩
  · obtain ⟨rfl, -⟩ : code = "acc" ∧ crest = ["it", "bank", "wait"] := by
      simpa [REQUIRED_SITUATION_CODES] using hsplit.symm
    simp [processRecord, hmem, h4, hfind, checkedScore_bad p rc hv hbad]
  · obtain ⟨rfl, rfl, -⟩ : c1 = "acc" ∧ code = "it" ∧ crest = ["bank", "wait"] := by
      simpa [REQUIRED_SITUATION_CODES] using hsplit.symm
    obtain ⟨w1, hw1, hn1⟩ := hvpre "acc" (by simp)
    simp [processRecord, hmem, h4, hfind, checkedScore_good p rc hw1 hn1,
      checkedScore_bad p rc hv hbad]
  · obtain ⟨rfl, rfl, rfl, -⟩ : c1 = "acc" ∧ c2 = "it" ∧ code = "bank" ∧ crest = ["wait"] := by
      simpa [REQUIRED_SITUATION_CODES] using hsplit.symm
    obtain ⟨w1, hw1, hn1⟩ := hvpre "acc" (by simp)
    obtain ⟨w2, hw2, hn2⟩ := hvpre "it" (by simp)
    simp [processRecord, hmem, h4, hfind, checkedScore_good p rc hw1 hn1,
      checkedScore_good p rc hw2 hn2, checkedScore_bad p rc hv hbad]
  · obtain ⟨rfl, rfl, rfl, rfl, -⟩ :
        c1 = "acc" ∧ c2 = "it" ∧ c3 = "bank" ∧ code = "wait" ∧ crest = [] := by
      simpa [REQUIRED_SITUATION_CODES] using hsplit.symm
    obtain ⟨w1, hw1, hn1⟩ := hvpre "acc" (by simp)
    obtain ⟨w2, hw2, hn2⟩ := hvpre "it" (by simp)
    obtain ⟨w3, hw3, hn3⟩ := hvpre "bank" (by simp)
    simp [processRecord, hmem, h4, hfind, checkedScore_good p rc hw1 hn1,
      checkedScore_good p rc hw2 hn2, checkedScore_good p rc hw3 hn3,
      checkedScore_bad p rc hv hbad]
  · exfalso
    have := congrArg List.length hsplit
    simp [REQUIRED_SITUATION_CODES] at this

/-! ### Key-set, unknown-profile, type-error and safety claims -/

/-- Claim C2: whenever `load_predictions` accepts a submission (ground
truth and submission having the distinct keys JSON parsing guarantees),
the returned predictions are keyed by exactly the ground-truth key set —
the same set identity and the same cardinality. -/
theorem C2_key_set_equality (gt : List (String × ScoreRecord))
    (sub : List (String × List (String × PyVal)))
    (preds : List (String × ScoreRecord))
    (hgt : (gt.map Prod.fst).Nodup) (hsub : (sub.map Prod.fst).Nodup)
    (h : load_predictions gt sub = .ok preds) :
    (preds.map Prod.fst).toFinset = (gt.map Prod.fst).toFinset ∧
    (preds.map Prod.fst).Nodup ∧ preds.length = gt.length := by
  unfold load_predictions at h
  by_cases hc : sub.length ≠ gt.length
  · rw [if_pos hc] at h; cases h
  · rw [if_neg hc] at h
    push_neg at hc
    have hkeys := loadRecords_keys _ sub 0 preds h
    have hall := loadRecords_allowed _ sub 0 preds h
    have hsubset : (sub.map Prod.fst).toFinset ⊆ (gt.map Prod.fst).toFinset := by
      intro k hk
      rw [List.mem_toFinset] at hk ⊢
      exact hall k hk
    have hcard : (gt.map Prod.fst).toFinset.card ≤ (sub.map Prod.fst).toFinset.card := by
      rw [List.toFinset_card_of_nodup hgt, List.toFinset_card_of_nodup hsub,
        List.length_map, List.length_map, hc]
    have heq := Finset.eq_of_subset_of_card_le hsubset hcard
    refine ⟨by rw [hkeys, heq], by rw [hkeys]; exact hsub, ?_⟩
    have hlen := congrArg List.length hkeys
    rw [List.length_map, List.length_map] at hlen
    rw [hlen, hc]

/-- Witness for C2 on the specification's example, where the accepted
predictions are the ground truth itself. -/
theorem C2_key_set_equality_witness :
    (gtEx.map Prod.fst).Nodup ∧ (subEx.map Prod.fst).Nodup ∧
    load_predictions gtEx subEx = .ok gtEx ∧
    ((gtEx.map Prod.fst).toFinset = (gtEx.map Prod.fst).toFinset ∧
      (gtEx.map Prod.fst).Nodup ∧ gtEx.length = gtEx.length) :=
  ⟨by decide, by decide, rfl, C2_key_set_equality gtEx subEx gtEx (by decide) (by decide) rfl⟩

/-- Claim C6 (amended): a submission with the right profile count but an
unknown profile key is rejected at that profile with the unknown-profile
error, provided every record before it validates successfully (the
counterexample shows that an earlier record's violation is reported
instead otherwise). -/
theorem C6_unknown_profile (gt : List (String × ScoreRecord))
    (pre rest : List (String × List (String × PyVal)))
    (p : String) (scores : List (String × PyVal))
    (hcount : (pre ++ (p, scores) :: rest).length = gt.length)
    (hp : p ∉ gt.map Prod.fst)
    (hpre : ∀ kv ∈ pre, ∀ m, ∃ r, processRecord m kv.1 kv.2 (gt.map Prod.fst) = .ok r) :
    load_predictions gt (pre ++ (p, scores) :: rest) =
      .error (.validation (.unknownProfile (pre.length + 1) p)) := by
  unfold load_predictions
  rw [if_neg (by simp [hcount])]
  have := loadRecords_error_at (gt.map Prod.fst)
    (fun m => .validation (.unknownProfile m p)) p scores
    (fun m => processRecord_unknown m p scores _ hp) pre 0 rest hpre
  simpa using this

/-- Witness for C6: the specification's own example — `u2` missing, an
extra `u3` instead — passes the count check and is rejected at record 2
as an unknown profile. -/
theorem C6_unknown_profile_witness :
    subUnknownProfile.length = gtEx.length ∧
    "u3" ∉ gtEx.map Prod.fst ∧
    load_predictions gtEx subUnknownProfile =
      .error (.validation (.unknownProfile 2 "u3")) := by
  refine ⟨by decide, by decide, ?_⟩
  exact C6_unknown_profile gtEx [("u1", scoresU1)] [] "u3" scoresU2 (by decide) (by decide)
    (by
      intro kv hkv m
      rcases (by simpa using hkv : kv = ("u1", scoresU1)) with rfl
      exact ⟨⟨10, 20, 30, 40⟩, rfl⟩)

/-- Counterexample to C6 as stated: a submission with matching count and
an unknown profile `u3` whose first record has only 3 fields is rejected
with the field-count error of record 1, not with an unknown-profile
error. -/
theorem C6_counterexample :
    subEarlyBad.length = gtEx.length ∧
    "u3" ∈ subEarlyBad.map Prod.fst ∧ "u3" ∉ gtEx.map Prod.fst ∧
    load_predictions gtEx subEarlyBad = .error (.validation (.wrongPairCount 1 "u1")) :=
  ⟨by decide, by decide, by decide, rfl⟩

/-- Claim C7 (amended): a record whose value at a required code has a
non-numeric Python type — in particular a string-encoded number such as
`"22.4"` — is rejected by `load_predictions` with the type error naming
that record, profile and code, provided it is the first violation: all
earlier records validate, the record passes the profile, field-count and
field-name checks, and the codes checked before it (fixed order acc, it,
bank, wait) hold numeric values. -/
theorem C7_string_typed_score (gt : List (String × ScoreRecord))
    (pre rest : List (String × List (String × PyVal)))
    (p : String) (scores : List (String × PyVal))
    (cpre crest : List String) (code : String) (v : PyVal)
    (hcount : (pre ++ (p, scores) :: rest).length = gt.length)
    (hpre : ∀ kv ∈ pre, ∀ m, ∃ r, processRecord m kv.1 kv.2 (gt.map Prod.fst) = .ok r)
    (hmem : p ∈ gt.map Prod.fst)
    (h4 : scores.length = 4)
    (hnames : ∀ kv ∈ scores, kv.1 ∈ REQUIRED_SITUATION_CODES)
    (hsplit : REQUIRED_SITUATION_CODES = cpre ++ code :: crest)
    (hvpre : ∀ c ∈ cpre, ∃ w, List.lookup c scores = some w ∧
      (w.typeName = "int" ∨ w.typeName = "float"))
    (hv : List.lookup code scores = some v)
    (hbad : v.typeName ≠ "int" ∧ v.typeName ≠ "float") :
    load_predictions gt (pre ++ (p, scores) :: rest) =
      .error (.validation (.scoreNotANumber (pre.length + 1) code p)) := by
  unfold load_predictions
  rw [if_neg (by simp [hcount])]
  have := loadRecords_error_at (gt.map Prod.fst)
    (fun m => .validation (.scoreNotANumber m code p)) p scores
    (fun m => processRecord_str_score m p scores _ cpre crest code v hmem h4 hnames
      hsplit hvpre hv hbad) pre 0 rest hpre
  simpa using this

/-- Witness for C7: the string-typed score `"22.4"` for `acc` in record 1
is rejected with the type error, even though numerically parseable. -/
theorem C7_string_typed_score_witness :
    List.lookup "acc" scoresStr = some (.pyStr "22.4") ∧
    (PyVal.pyStr "22.4").typeName ≠ "int" ∧ (PyVal.pyStr "22.4").typeName ≠ "float" ∧
    load_predictions gtEx subStrScore =
      .error (.validation (.scoreNotANumber 1 "acc" "u1")) := by
  refine ⟨rfl, by decide, by decide, ?_⟩
  exact C7_string_typed_score gtEx [] [("u2", scoresU2)] "u1" scoresStr []
    ["it", "bank", "wait"] "acc" (.pyStr "22.4") (by decide)
    (by intro kv hkv m; simp at hkv) (by decide) (by decide) (by decide) rfl
    (by intro c hc; simp at hc) rfl (by decide)

/-- Counterexample to C7 as stated: a record holding the string-typed
score `"22.4"` for the required field `acc`, but also an unknown code
`zz`, is rejected with the unknown-situation-code error — not with a type
error. -/
theorem C7_counterexample :
    List.lookup "acc" scoresBadCode = some (.pyStr "22.4") ∧
    (PyVal.pyStr "22.4").typeName ≠ "int" ∧ (PyVal.pyStr "22.4").typeName ≠ "float" ∧
    load_predictions gtEx subStrScoreBadCode =
      .error (.validation (.unknownSituationCode 1 "zz" "u1")) :=
  ⟨rfl, by decide, by decide, rfl⟩

/-- Claim C9: a record that passes the field-count check (exactly 4
fields) and the field-name check (all names among acc, it, bank, wait),
its keys being distinct as JSON parsing guarantees, carries all four
required codes; hence the four subscript lookups of `processRecord` all
succeed and the modelled `KeyError` is unreachable. -/
theorem C9_required_lookups (scores : List (String × PyVal))
    (h4 : scores.length = 4)
    (hnames : ∀ kv ∈ scores, kv.1 ∈ REQUIRED_SITUATION_CODES)
    (hnd : (scores.map Prod.fst).Nodup) :
    (∀ c ∈ REQUIRED_SITUATION_CODES, ∃ v, List.lookup c scores = some v) ∧
    ∀ (rc : Nat) (p : String) (al : List String) (k : String),
      processRecord rc p scores al ≠ .error (.keyError k) :=
  ⟨fun c hc => lookup_of_mem_keys (keys_cover_codes h4 hnames hnd c hc),
    processRecord_no_keyError h4 hnames hnd⟩

/-- Witness for C9 on a concrete valid record. -/
theorem C9_required_lookups_witness :
    scoresU1.length = 4 ∧
    (∀ kv ∈ scoresU1, kv.1 ∈ REQUIRED_SITUATION_CODES) ∧
    (scoresU1.map Prod.fst).Nodup ∧
    ((∀ c ∈ REQUIRED_SITUATION_CODES, ∃ v, List.lookup c scoresU1 = some v) ∧
      ∀ (rc : Nat) (p : String) (al : List String) (k : String),
        processRecord rc p scoresU1 al ≠ .error (.keyError k)) :=
  ⟨by decide, by decide, by decide, C9_required_lookups scoresU1 (by decide) (by decide) (by decide)⟩

/-! ### Pearson correlation lemmas

The implementation's clipped correlation agrees with the specification's
textbook formula whenever the denominator is nonzero: the clip to
`[-1, 1]` is the identity, by the Cauchy–Schwarz inequality. -/

/-- Mapped list sums as sums over the index type. -/
theorem list_sum_map_eq {α : Type} (l : List α) (f : α → ℝ) :
    (l.map f).sum = ∑ i : Fin l.length, f (l.get i) := by
  conv_lhs => rw [← List.ofFn_get l]
  rw [List.map_ofFn, List.sum_ofFn]
  rfl

/-- The Cauchy–Schwarz inequality over a list of paired reals. -/
theorem list_cauchy_schwarz (l : List (ℝ × ℝ)) (u v : ℝ × ℝ → ℝ) :
    ((l.map fun q => u q * v q).sum) ^ 2 ≤
      ((l.map fun q => u q ^ 2).sum) * ((l.map fun q => v q ^ 2).sum) := by
  rw [list_sum_map_eq, list_sum_map_eq, list_sum_map_eq]
  exact Finset.sum_mul_sq_le_sq_mul_sq Finset.univ
    (fun i => u (l.get i)) (fun i => v (l.get i))

/-- A sum of squares is nonnegative. -/
theorem sumSquares_nonneg (x : List ℝ) : 0 ≤ sumSquares x := by
  apply List.sum_nonneg
  intro a ha
  obtain ⟨b, -, rfl⟩ := List.mem_map.1 ha
  exact sq_nonneg b

/-- The Pearson numerator as a sum over the zipped raw vectors. -/
theorem pearsonNum_zip (x y : List ℝ) :
    pearsonNum x y = ((x.zip y).map fun q => (q.1 - mean x) * (q.2 - mean y)).sum := by
  unfold pearsonNum centered
  rw [List.zip_map, List.map_map]
  rfl

theorem map_fst_zip_sum (x y : List ℝ) (f : ℝ → ℝ) (h : x.length ≤ y.length) :
    (x.map f).sum = ((x.zip y).map fun q => f q.1).sum := by
  conv_lhs => rw [← List.map_fst_zip x y h]
  rw [List.map_map]
  rfl

theorem map_snd_zip_sum (x y : List ℝ) (f : ℝ → ℝ) (h : y.length ≤ x.length) :
    (y.map f).sum = ((x.zip y).map fun q => f q.2).sum := by
  conv_lhs => rw [← List.map_snd_zip x y h]
  rw [List.map_map]
  rfl

theorem sumSquares_centered_fst (x y : List ℝ) (h : x.length ≤ y.length) :
    sumSquares (centered x) = ((x.zip y).map fun q => (q.1 - mean x) ^ 2).sum := by
  unfold sumSquares centered
  rw [List.map_map]
  exact map_fst_zip_sum x y _ h

theorem sumSquares_centered_snd (x y : List ℝ) (h : y.length ≤ x.length) :
    sumSquares (centered y) = ((x.zip y).map fun q => (q.2 - mean y) ^ 2).sum := by
  unfold sumSquares centered
  rw [List.map_map]
  exact map_snd_zip_sum x y _ h

/-- Cauchy–Schwarz for the Pearson statistics: the squared numerator is at
most the product of the two sums of squares. -/
theorem pearson_cauchy (x y : List ℝ) (hlen : x.length = y.length) :
    pearsonNum x y ^ 2 ≤ sumSquares (centered x) * sumSquares (centered y) := by
  rw [pearsonNum_zip, sumSquares_centered_fst x y (le_of_eq hlen),
    sumSquares_centered_snd x y (ge_of_eq hlen)]
  exact list_cauchy_schwarz (x.zip y) (fun q => q.1 - mean x) (fun q => q.2 - mean y)

/-- The implementation's denominator written with the specification's
sums. -/
theorem pearsonDen_spec_eq (x y : List ℝ) :
    pearsonDen x y = Real.sqrt (((x.map fun a => (a - mean x) ^ 2).sum) *
      ((y.map fun b => (b - mean y) ^ 2).sum)) := by
  unfold pearsonDen sumSquares centered
  rw [List.map_map, List.map_map]
  rfl

/-- On equal-length vectors with nonzero denominator the implementation's
clipped `pearsonr` returns exactly the specification's textbook
coefficient: the quotient lies in `[-1, 1]` by Cauchy–Schwarz, so the clip
is the identity. -/
theorem pearsonr_eq_spec (x y : List ℝ) (hlen : x.length = y.length)
    (hden : pearsonDen x y ≠ 0) : pearsonr x y = some (pearson_spec x y) := by
  have hprod : 0 ≤ sumSquares (centered x) * sumSquares (centered y) :=
    mul_nonneg (sumSquares_nonneg _) (sumSquares_nonneg _)
  have hpos : 0 < pearsonDen x y :=
    lt_of_le_of_ne (Real.sqrt_nonneg _) (Ne.symm hden)
  have hden2 : pearsonDen x y ^ 2 = sumSquares (centered x) * sumSquares (centered y) := by
    unfold pearsonDen
    exact Real.sq_sqrt hprod
  have hcs := pearson_cauchy x y hlen
  have hup : pearsonNum x y ≤ pearsonDen x y := by nlinarith
  have hlo : -(pearsonDen x y) ≤ pearsonNum x y := by nlinarith
  have h1 : pearsonNum x y / pearsonDen x y ≤ 1 := (div_le_one hpos).mpr hup
  have h2 : (-1 : ℝ) ≤ pearsonNum x y / pearsonDen x y := by
    rw [le_div_iff₀ hpos]
    linarith
  unfold pearsonr
  rw [if_neg hden, max_eq_left (le_min h2 (by norm_num)), min_eq_left h1]
  unfold pearson_spec
  rw [← pearsonNum_zip, ← pearsonDen_spec_eq]

/-! ### The primary-score claims -/

/-- Claim C1: on a validated predictions mapping whose four per-situation
score vectors all have a nonzero Pearson denominator (otherwise the
correlation is `nan`), `compute_primary_score` returns exactly the mean of
the four textbook Pearson coefficients of the vectors built by iterating
the ground-truth profiles in order — the four coefficients summed and
divided by 4. -/
theorem C1_primary_score_formula (gt predictions : List (String × ScoreRecord))
    (_hval : ∀ k ∈ gt.map Prod.fst, (List.lookup k predictions).isSome = true)
    (hden : ∀ sit ∈ situations,
      pearsonDen (gtList gt sit) (predictionsList gt predictions sit) ≠ 0) :
    compute_primary_score gt predictions = some
      ((pearson_spec (gtList gt "acc") (predictionsList gt predictions "acc") +
        pearson_spec (gtList gt "it") (predictionsList gt predictions "it") +
        pearson_spec (gtList gt "bank") (predictionsList gt predictions "bank") +
        pearson_spec (gtList gt "wait") (predictionsList gt predictions "wait")) / 4) := by
  have hlen : ∀ sit : String,
      (gtList gt sit).length = (predictionsList gt predictions sit).length := by
    intro sit
    simp [gtList, predictionsList]
  have ha := pearsonr_eq_spec _ _ (hlen "acc") (hden "acc" (by simp [situations]))
  have hi := pearsonr_eq_spec _ _ (hlen "it") (hden "it" (by simp [situations]))
  have hb := pearsonr_eq_spec _ _ (hlen "bank") (hden "bank" (by simp [situations]))
  have hw := pearsonr_eq_spec _ _ (hlen "wait") (hden "wait" (by simp [situations]))
  rw [compute_primary_score, show situations = ["acc", "it", "bank", "wait"] from rfl]
  rw [sumCorrelation, ha, sumCorrelation, hi, sumCorrelation, hb, sumCorrelation, hw,
    sumCorrelation]
  simp only [Option.map_some]
  simp [situations]
  ring

/-- The identically-zipped product list is the list of squares. -/
theorem zip_self_mul (l : List ℝ) :
    ((l.zip l).map fun q => q.1 * q.2) = l.map fun a => a ^ 2 := by
  induction l with
  | nil => rfl
  | cons a t ih => simp [ih, pow_two]

theorem pearsonNum_self (x : List ℝ) : pearsonNum x x = sumSquares (centered x) := by
  unfold pearsonNum sumSquares
  rw [zip_self_mul]

theorem pearsonDen_self (x : List ℝ) : pearsonDen x x = sumSquares (centered x) := by
  unfold pearsonDen
  exact Real.sqrt_mul_self (sumSquares_nonneg _)

/-- The correlation of a nonzero-variance vector with itself is 1. -/
theorem pearsonr_self (x : List ℝ) (h : sumSquares (centered x) ≠ 0) :
    pearsonr x x = some 1 := by
  unfold pearsonr
  rw [pearsonDen_self, pearsonNum_self, if_neg h, div_self h]
  rw [min_self, max_eq_left (by norm_num)]

/-- With distinct keys, looking up an entry's key finds that entry. -/
theorem lookup_self_assoc {l : List (String × ScoreRecord)}
    (hnd : (l.map Prod.fst).Nodup) : ∀ kv ∈ l, List.lookup kv.1 l = some kv.2 := by
  induction l with
  | nil => intro kv hkv; simp at hkv
  | cons hd t ih =>
    intro kv hkv
    rcases (by simpa using hkv : kv = hd ∨ kv ∈ t) with rfl | hmem
    · simp [List.lookup]
    · have hne : kv.1 ≠ hd.1 := by
        intro he
        have : kv.1 ∈ t.map Prod.fst := List.mem_map.2 ⟨kv, hmem, rfl⟩
        rw [List.map_cons, List.nodup_cons] at hnd
        exact hnd.1 (he ▸ this)
      have hb : (kv.1 == hd.1) = false := by simpa using hne
      rw [List.map_cons, List.nodup_cons] at hnd
      simp [List.lookup, hb, ih hnd.2 kv hmem]

/-- When the predictions are the ground truth itself (with its distinct
keys), the predictions vector of each situation is the ground-truth
vector. -/
theorem predictionsList_self (gt : List (String × ScoreRecord))
    (hnd : (gt.map Prod.fst).Nodup) (sit : String) :
    predictionsList gt gt sit = gtList gt sit := by
  unfold predictionsList gtList
  apply List.map_congr_left
  intro kv hkv
  rw [lookup_self_assoc hnd kv hkv]
  rfl

/-- Claim C4 (amended): when the submission equals the ground truth
verbatim and every per-situation ground-truth vector has nonzero variance,
each category's Pearson correlation is 1, the primary score is 1, and the
secondary score is 0.  (Without the nonzero-variance proviso the
correlation is `nan`; see the counterexample.) -/
theorem C4_identical_submission (gt : List (String × ScoreRecord))
    (hnd : (gt.map Prod.fst).Nodup)
    (hvar : ∀ sit ∈ situations, sumSquares (centered (gtList gt sit)) ≠ 0) :
    (∀ sit ∈ situations,
      pearsonr (gtList gt sit) (predictionsList gt gt sit) = some 1) ∧
    compute_primary_score gt gt = some 1 ∧
    compute_secondary_score gt = 0 := by
  have hsit : ∀ sit ∈ situations,
      pearsonr (gtList gt sit) (predictionsList gt gt sit) = some 1 := by
    intro sit hs
    rw [predictionsList_self gt hnd sit]
    exact pearsonr_self _ (hvar sit hs)
  refine ⟨hsit, ?_, rfl⟩
  have ha := hsit "acc" (by simp [situations])
  have hi := hsit "it" (by simp [situations])
  have hb := hsit "bank" (by simp [situations])
  have hw := hsit "wait" (by simp [situations])
  rw [compute_primary_score, show situations = ["acc", "it", "bank", "wait"] from rfl]
  rw [sumCorrelation, ha, sumCorrelation, hi, sumCorrelation, hb, sumCorrelation, hw,
    sumCorrelation]
  simp [situations]
  norm_num

/-- A singleton vector has zero variance, so its correlation is `nan`. -/
theorem pearsonr_singleton (a : ℝ) (y : List ℝ) : pearsonr [a] y = none := by
  have hden : pearsonDen [a] y = 0 := by
    unfold pearsonDen sumSquares centered mean
    simp
  unfold pearsonr
  rw [if_pos hden]

/-- Counterexample to C4 as stated: on a one-profile ground truth every
per-situation vector has zero variance, so the identical submission scores
`nan` (modelled `none`), not 1.0. -/
theorem C4_counterexample :
    compute_primary_score gtOne gtOne = none ∧
    compute_primary_score gtOne gtOne ≠ some 1 := by
  have h1 : gtList gtOne "acc" = [((10 : ℚ) : ℝ)] := by
    simp [gtList, gtOne, ScoreRecord.sit]
  have hnone : compute_primary_score gtOne gtOne = none := by
    rw [compute_primary_score, show situations = ["acc", "it", "bank", "wait"] from rfl,
      sumCorrelation, h1, pearsonr_singleton]
    rfl
  exact ⟨hnone, by rw [hnone]; simp⟩

/-! ### Permutation invariance and context independence -/

/-- Keyed lookup is invariant under permutation of a distinct-key
association list. -/
theorem lookup_perm :
    ∀ {l l' : List (String × ScoreRecord)}, l.Perm l' →
      (l.map Prod.fst).Nodup → ∀ k, List.lookup k l = List.lookup k l' := by
  intro l l' h
  induction h with
  | nil => intro _ k; rfl
  | cons x h ih =>
    intro hnd k
    rw [List.map_cons, List.nodup_cons] at hnd
    cases hb : k == x.1 with
    | true => simp [List.lookup, hb]
    | false => simp [List.lookup, hb, ih hnd.2 k]
  | swap x y t =>
    intro hnd k
    rw [List.map_cons, List.map_cons, List.nodup_cons, List.nodup_cons] at hnd
    have hxy : y.1 ≠ x.1 := by
      intro he
      exact hnd.1 (by simp [he])
    cases hbx : k == x.1 with
    | true =>
      have hk : k = x.1 := by simpa using hbx
      have hby : (k == y.1) = false := by simp [hk, Ne.symm hxy]
      simp [List.lookup, hbx, hby]
    | false =>
      cases hby : k == y.1 with
      | true => simp [List.lookup, hbx, hby]
      | false => simp [List.lookup, hbx, hby]
  | trans h1 h2 ih1 ih2 =>
    intro hnd k
    have hnd2 := ((h1.map Prod.fst).nodup_iff).mp hnd
    exact (ih1 hnd k).trans (ih2 hnd2 k)

/-- `pearsonr` of two vectors built over the same base list is invariant
under a simultaneous permutation of the base list: every statistic is a
sum or a length. -/
theorem pearsonr_map_perm {α : Type} (l l' : List α) (h : l.Perm l') (f g : α → ℝ) :
    pearsonr (l.map f) (l.map g) = pearsonr (l'.map f) (l'.map g) := by
  have hm1 : mean (l.map f) = mean (l'.map f) := by
    unfold mean
    rw [(h.map f).sum_eq, List.length_map, List.length_map, h.length_eq]
  have hm2 : mean (l.map g) = mean (l'.map g) := by
    unfold mean
    rw [(h.map g).sum_eq, List.length_map, List.length_map, h.length_eq]
  have hnum : pearsonNum (l.map f) (l.map g) = pearsonNum (l'.map f) (l'.map g) := by
    unfold pearsonNum centered
    rw [List.map_map, List.map_map, List.map_map, List.map_map,
      List.zip_map', List.zip_map', List.map_map, List.map_map, hm1, hm2]
    exact (h.map _).sum_eq
  have hs1 : sumSquares (centered (l.map f)) = sumSquares (centered (l'.map f)) := by
    unfold sumSquares centered
    rw [List.map_map, List.map_map, List.map_map, List.map_map, hm1]
    exact (h.map _).sum_eq
  have hs2 : sumSquares (centered (l.map g)) = sumSquares (centered (l'.map g)) := by
    unfold sumSquares centered
    rw [List.map_map, List.map_map, List.map_map, List.map_map, hm2]
    exact (h.map _).sum_eq
  have hden : pearsonDen (l.map f) (l.map g) = pearsonDen (l'.map f) (l'.map g) := by
    unfold pearsonDen
    rw [hs1, hs2]
  unfold pearsonr
  rw [hnum, hden]

/-- The predictions vectors only consult the predictions by key, so any
permutation of a distinct-key predictions mapping builds the same
vectors. -/
theorem predictionsList_perm (gt : List (String × ScoreRecord))
    {preds preds' : List (String × ScoreRecord)} (hperm : preds'.Perm preds)
    (hnd : (preds.map Prod.fst).Nodup) (sit : String) :
    predictionsList gt preds' sit = predictionsList gt preds sit := by
  unfold predictionsList
  apply List.map_congr_left
  intro kv _
  rw [lookup_perm hperm (((hperm.map Prod.fst).nodup_iff).mpr hnd) kv.1]

/-- Claim C8: `compute_primary_score` is invariant under a simultaneous
permutation of the ground truth's profile order and of the (distinct-key)
predictions mapping's order: the vectors are matched by profile
identifier, not by position. -/
theorem C8_profile_order_invariance (gt gt' preds preds' : List (String × ScoreRecord))
    (hgt : gt'.Perm gt) (hpred : preds'.Perm preds)
    (hnd : (preds.map Prod.fst).Nodup) :
    compute_primary_score gt' preds' = compute_primary_score gt preds := by
  have hsit : ∀ sit : String,
      pearsonr (gtList gt' sit) (predictionsList gt' preds' sit) =
      pearsonr (gtList gt sit) (predictionsList gt preds sit) := by
    intro sit
    rw [predictionsList_perm gt' hpred hnd sit]
    unfold gtList predictionsList
    exact pearsonr_map_perm gt' gt hgt _ _
  have hsum : ∀ sits : List String,
      sumCorrelation gt' preds' sits = sumCorrelation gt preds sits := by
    intro sits
    induction sits with
    | nil => rfl
    | cons s t ih => rw [sumCorrelation, sumCorrelation, hsit s, ih]
  unfold compute_primary_score
  rw [hsum]

/-- Claim C10: the result of `_evaluate` does not depend on the `_context`
argument — for any two context values, the same ground truth and the same
submission produce identical result records. -/
theorem C10_context_independence (gt : List (String × ScoreRecord))
    (submission : List (String × List (String × PyVal)))
    (c1 c2 : List (String × String)) :
    _evaluate gt submission c1 = _evaluate gt submission c2 := rfl

/-! ### Concrete evaluations for the scoring witnesses -/

theorem sumSquares_centered_pair (a b : ℝ) :
    sumSquares (centered [a, b]) = (a - b) ^ 2 / 2 := by
  unfold sumSquares centered mean
  simp
  ring

theorem sumSquares_centered_pair_ne (a b : ℝ) (h : a ≠ b) :
    sumSquares (centered [a, b]) ≠ 0 := by
  rw [sumSquares_centered_pair]
  have := sub_ne_zero.mpr h
  positivity

theorem pearsonDen_pair_ne (a b c d : ℝ) (h1 : a ≠ b) (h2 : c ≠ d) :
    pearsonDen [a, b] [c, d] ≠ 0 := by
  unfold pearsonDen
  rw [sumSquares_centered_pair, sumSquares_centered_pair, Real.sqrt_ne_zero']
  have ha := sub_ne_zero.mpr h1
  have hc := sub_ne_zero.mpr h2
  positivity

theorem gtListEx_acc : gtList gtEx "acc" = [(10 : ℝ), 20] := by
  simp [gtList, gtEx, ScoreRecord.sit]

theorem gtListEx_it : gtList gtEx "it" = [(20 : ℝ), 10] := by
  simp [gtList, gtEx, ScoreRecord.sit]

theorem gtListEx_bank : gtList gtEx "bank" = [(30 : ℝ), 10] := by
  simp [gtList, gtEx, ScoreRecord.sit]

theorem gtListEx_wait : gtList gtEx "wait" = [(40 : ℝ), 20] := by
  simp [gtList, gtEx, ScoreRecord.sit]

theorem predictionsListEx (sit : String) :
    predictionsList gtEx gtEx sit = gtList gtEx sit :=
  predictionsList_self gtEx (by decide) sit

/-- Witness for C1 on the specification's example (predictions equal to
the ground truth). -/
theorem C1_primary_score_formula_witness :
    (∀ k ∈ gtEx.map Prod.fst, (List.lookup k gtEx).isSome = true) ∧
    (∀ sit ∈ situations,
      pearsonDen (gtList gtEx sit) (predictionsList gtEx gtEx sit) ≠ 0) ∧
    compute_primary_score gtEx gtEx = some
      ((pearson_spec (gtList gtEx "acc") (predictionsList gtEx gtEx "acc") +
        pearson_spec (gtList gtEx "it") (predictionsList gtEx gtEx "it") +
        pearson_spec (gtList gtEx "bank") (predictionsList gtEx gtEx "bank") +
        pearson_spec (gtList gtEx "wait") (predictionsList gtEx gtEx "wait")) / 4) := by
  have hden : ∀ sit ∈ situations,
      pearsonDen (gtList gtEx sit) (predictionsList gtEx gtEx sit) ≠ 0 := by
    intro sit hs
    rw [predictionsListEx]
    rcases (by simpa [situations] using hs :
        sit = "acc" ∨ sit = "it" ∨ sit = "bank" ∨ sit = "wait") with rfl | rfl | rfl | rfl
    · rw [gtListEx_acc]; exact pearsonDen_pair_ne 10 20 10 20 (by norm_num) (by norm_num)
    · rw [gtListEx_it]; exact pearsonDen_pair_ne 20 10 20 10 (by norm_num) (by norm_num)
    · rw [gtListEx_bank]; exact pearsonDen_pair_ne 30 10 30 10 (by norm_num) (by norm_num)
    · rw [gtListEx_wait]; exact pearsonDen_pair_ne 40 20 40 20 (by norm_num) (by norm_num)
  exact ⟨by decide, hden, C1_primary_score_formula gtEx gtEx (by decide) hden⟩

/-- Witness for C4 (amended) on the specification's example. -/
theorem C4_identical_submission_witness :
    (gtEx.map Prod.fst).Nodup ∧
    (∀ sit ∈ situations, sumSquares (centered (gtList gtEx sit)) ≠ 0) ∧
    ((∀ sit ∈ situations,
        pearsonr (gtList gtEx sit) (predictionsList gtEx gtEx sit) = some 1) ∧
      compute_primary_score gtEx gtEx = some 1 ∧
      compute_secondary_score gtEx = 0) := by
  have hvar : ∀ sit ∈ situations, sumSquares (centered (gtList gtEx sit)) ≠ 0 := by
    intro sit hs
    rcases (by simpa [situations] using hs :
        sit = "acc" ∨ sit = "it" ∨ sit = "bank" ∨ sit = "wait") with rfl | rfl | rfl | rfl
    · rw [gtListEx_acc]; exact sumSquares_centered_pair_ne 10 20 (by norm_num)
    · rw [gtListEx_it]; exact sumSquares_centered_pair_ne 20 10 (by norm_num)
    · rw [gtListEx_bank]; exact sumSquares_centered_pair_ne 30 10 (by norm_num)
    · rw [gtListEx_wait]; exact sumSquares_centered_pair_ne 40 20 (by norm_num)
  exact ⟨by decide, hvar, C4_identical_submission gtEx (by decide) hvar⟩

/-- Witness for C8 on the example ground truth and its reversal. -/
theorem C8_profile_order_invariance_witness :
    gtExRev.Perm gtEx ∧ (gtEx.map Prod.fst).Nodup ∧
    compute_primary_score gtExRev gtExRev = compute_primary_score gtEx gtEx := by
  have hperm : gtExRev.Perm gtEx := by
    unfold gtExRev gtEx
    exact List.Perm.swap _ _ []
  exact ⟨hperm, by decide,
    C8_profile_order_invariance gtEx gtExRev gtEx gtExRev hperm hperm (by decide)⟩

end Aware
